import Mathlib

/-!
Shallow embedding of the user CRUD service in `cmd/api/main.go`.

The Go program keeps an in-memory map `users : map[string]*User` and five
gin handlers over it, plus a health handler.  We model the map as an
association list (`Store`) with replace-or-append insert, first-match
lookup and key-filtering erase, and each handler as a pure function from
its inputs — path id, decoded JSON body, and the server-generated id and
timestamp where the handler generates them — and the current store to
the new store, the HTTP status code and the response envelope.

`c.ShouldBindJSON(&user)` either fails (malformed body or a field of the
wrong shape), modelled as the body being `none`, or fills a `User`
value, absent JSON fields becoming Go zero values (empty strings, zero
time), modelled as `some u`.  The `User` struct carries no `binding`
tags, so binding performs no required-field validation.  Timestamps are
modelled as natural numbers; the file-mirroring side effect
(`saveUserToFile`) is advisory only and never influences the store or
the response, so it is omitted from the state.
-/

structure User where
  id : String
  name : String
  email : String
  createdAt : Nat
deriving Repr, DecidableEq

inductive Payload where
  | user (u : User)
  | userList (l : List User)
  | health (timestamp : String) (version : String) (uptime : String)
deriving Repr, DecidableEq

structure APIResponse where
  status : String
  message : String
  data : Option Payload
deriving Repr, DecidableEq

abbrev Store := List (String × User)

def Store.lookup : Store → String → Option User
  | [], _ => none
  | (k, v) :: rest, id => if k = id then some v else Store.lookup rest id

def Store.insert : Store → String → User → Store
  | [], id, u => [(id, u)]
  | (k, v) :: rest, id, u =>
      if k = id then (id, u) :: rest else (k, v) :: Store.insert rest id u

def Store.erase (s : Store) (id : String) : Store :=
  s.filter (fun p => p.1 != id)

def Store.keys (s : Store) : List String :=
  s.map Prod.fst

def Store.values (s : Store) : List User :=
  s.map Prod.snd

def invalidBodyResponse : APIResponse :=
  { status := "error", message := "Invalid request body", data := none }

def notFoundResponse : APIResponse :=
  { status := "error", message := "User not found", data := none }

def healthHandler (timestamp uptime : String) : Nat × APIResponse :=
  (200, { status := "ok", message := "Go API is healthy",
          data := some (Payload.health timestamp "1.0.0" uptime) })

def getUsersHandler (s : Store) : Nat × APIResponse :=
  (200, { status := "success", message := "Users retrieved successfully",
          data := some (Payload.userList (Store.values s)) })

def createUserHandler (body : Option User) (newId : String) (now : Nat)
    (s : Store) : Store × Nat × APIResponse :=
  match body with
  | none => (s, 400, invalidBodyResponse)
  | some u =>
      let user : User := { u with id := newId, createdAt := now }
      (Store.insert s newId user, 201,
        { status := "success", message := "User created successfully",
          data := some (Payload.user user) })

def getUserHandler (id : String) (s : Store) : Nat × APIResponse :=
  match Store.lookup s id with
  | none => (404, notFoundResponse)
  | some u =>
      (200, { status := "success", message := "User retrieved successfully",
              data := some (Payload.user u) })

def updateUserHandler (id : String) (body : Option User) (s : Store) :
    Store × Nat × APIResponse :=
  match Store.lookup s id with
  | none => (s, 404, notFoundResponse)
  | some user =>
      match body with
      | none => (s, 400, invalidBodyResponse)
      | some upd =>
          let user2 : User :=
            { user with
              name := if upd.name = "" then user.name else upd.name,
              email := if upd.email = "" then user.email else upd.email }
          (Store.insert s id user2, 200,
            { status := "success", message := "User updated successfully",
              data := some (Payload.user user2) })

def deleteUserHandler (id : String) (s : Store) : Store × Nat × APIResponse :=
  match Store.lookup s id with
  | none => (s, 404, notFoundResponse)
  | some _ =>
      (Store.erase s id, 200,
        { status := "success", message := "User deleted successfully",
          data := none })

def envelopeOK (r : APIResponse) : Prop :=
  (r.status = "ok" ∨ r.status = "success" ∨ r.status = "error") ∧
  r.message ≠ "" ∧
  (r.status = "error" → r.data = none)

instance (r : APIResponse) : Decidable (envelopeOK r) := by
  unfold envelopeOK
  infer_instance

theorem Store.lookup_insert_self (s : Store) (id : String) (u : User) :
    Store.lookup (Store.insert s id u) id = some u := by
  induction s with
  | nil => simp [Store.insert, Store.lookup]
  | cons p rest ih =>
      obtain ⟨k, v⟩ := p
      by_cases h : k = id
      · simp [Store.insert, Store.lookup, h]
      · simp [Store.insert, Store.lookup, h, ih]

theorem Store.lookup_erase_self (s : Store) (id : String) :
    Store.lookup (Store.erase s id) id = none := by
  induction s with
  | nil => rfl
  | cons p rest ih =>
      obtain ⟨k, v⟩ := p
      by_cases h : k = id
      · simpa [Store.erase, List.filter_cons, h] using ih
      · simpa [Store.erase, List.filter_cons, Store.lookup, h] using ih

/-- C1: updating a stored user applies the incoming name exactly when it
is non-empty and the incoming email exactly when it is non-empty, keeps
a field whose incoming value is the empty string, and never changes the
ID or the creation timestamp; the witness instantiates this at
name="A", email="a@x.com" updated with name="B", email="". -/
theorem update_partial_semantics (s : Store) (id : String) (u upd : User)
    (h : Store.lookup s id = some u) :
    Store.lookup (updateUserHandler id (some upd) s).1 id =
      some { u with
        name := if upd.name = "" then u.name else upd.name,
        email := if upd.email = "" then u.email else upd.email } := by
  simp [updateUserHandler, h, Store.lookup_insert_self]

/-- Witness for C1: a user stored under "i1" with name "A" and email
"a@x.com" updated with body name "B", email "" keeps its id, timestamp
and email while the name becomes "B". -/
theorem update_partial_semantics_witness :
    Store.lookup
        (updateUserHandler "i1"
          (some { id := "", name := "B", email := "", createdAt := 0 })
          [("i1", { id := "i1", name := "A", email := "a@x.com", createdAt := 7 })]).1
        "i1" =
      some { id := "i1", name := "B", email := "a@x.com", createdAt := 7 } := by
  have h := update_partial_semantics
    [("i1", { id := "i1", name := "A", email := "a@x.com", createdAt := 7 })] "i1"
    { id := "i1", name := "A", email := "a@x.com", createdAt := 7 }
    { id := "", name := "B", email := "", createdAt := 0 } (by decide)
  simpa using h

/-- C4: whatever id and created_at values the client ships in the JSON
body of a create request, the stored record carries the server-generated
id and timestamp and the client's values are discarded. -/
theorem create_ignores_client_id_timestamp (s : Store) (u : User)
    (newId : String) (now : Nat) :
    Store.lookup (createUserHandler (some u) newId now s).1 newId =
      some { id := newId, name := u.name, email := u.email, createdAt := now } := by
  simp [createUserHandler, Store.lookup_insert_self]

/-- C5: a malformed JSON body on create or on update yields a response
with status "error" and leaves the store exactly as it was. -/
theorem malformed_body_no_mutation (s : Store) (id newId : String) (now : Nat) :
    (createUserHandler none newId now s).1 = s ∧
    (createUserHandler none newId now s).2.2.status = "error" ∧
    (updateUserHandler id none s).1 = s ∧
    (updateUserHandler id none s).2.2.status = "error" := by
  refine ⟨rfl, rfl, ?_, ?_⟩ <;>
    cases h : Store.lookup s id <;>
      simp [updateUserHandler, h, notFoundResponse, invalidBodyResponse]

/-- C10: an update whose path ID is absent from the store answers with
the 404 not-found envelope whatever the body is, malformed body
included; with the ID present and a malformed body it answers with the
400 invalid-body envelope; in both error cases the store is returned
unchanged. -/
theorem update_notfound_precedence (s : Store) (id : String) :
    (∀ body : Option User, Store.lookup s id = none →
      updateUserHandler id body s = (s, 404, notFoundResponse)) ∧
    (∀ u : User, Store.lookup s id = some u →
      updateUserHandler id none s = (s, 400, invalidBodyResponse)) := by
  constructor
  · intro body habs
    simp [updateUserHandler, habs]
  · intro u hpres
    simp [updateUserHandler, hpres]

/-- Witness for C10: with only "i1" stored, an update at the absent id
"nope" with a malformed body answers 404 and leaves the store as it was,
and an update at "i1" with a malformed body answers 400 and leaves the
store as it was. -/
theorem update_notfound_precedence_witness :
    updateUserHandler "nope" none
        [("i1", { id := "i1", name := "A", email := "a@x.com", createdAt := 7 })] =
      ([("i1", { id := "i1", name := "A", email := "a@x.com", createdAt := 7 })],
        404, notFoundResponse) ∧
    updateUserHandler "i1" none
        [("i1", { id := "i1", name := "A", email := "a@x.com", createdAt := 7 })] =
      ([("i1", { id := "i1", name := "A", email := "a@x.com", createdAt := 7 })],
        400, invalidBodyResponse) := by
  constructor
  · exact (update_notfound_precedence
      [("i1", { id := "i1", name := "A", email := "a@x.com", createdAt := 7 })]
      "nope").1 none (by decide)
  · exact (update_notfound_precedence
      [("i1", { id := "i1", name := "A", email := "a@x.com", createdAt := 7 })]
      "i1").2 { id := "i1", name := "A", email := "a@x.com", createdAt := 7 }
      (by decide)

/-- C2 counterexample: the body `\x7b\x7d`, well-formed JSON missing
both name and email, binds to the zero-valued User because the Go
struct carries no required-field tags; the create handler then answers
201 and inserts a record with empty name and email, contradicting the
claim that missing required fields are rejected with 400 and no user
created. -/
theorem create_missing_fields_counterexample :
    (createUserHandler (some { id := "", name := "", email := "", createdAt := 0 })
        "i1" 5 []).2.1 = 201 ∧
    (createUserHandler (some { id := "", name := "", email := "", createdAt := 0 })
        "i1" 5 []).1 =
      [("i1", { id := "i1", name := "", email := "", createdAt := 5 })] := by
  constructor <;> rfl

/-- C2 (amended): a malformed JSON body makes the create handler answer
the 400 invalid-body error envelope without touching the store, while a
well-formed body — even one missing name or email, which bind as empty
strings — is accepted with 201 and a record is inserted. -/
theorem create_malformed_body_rejected :
    (∀ (s : Store) (newId : String) (now : Nat),
      createUserHandler none newId now s = (s, 400, invalidBodyResponse)) ∧
    (∀ (s : Store) (u : User) (newId : String) (now : Nat),
      (createUserHandler (some u) newId now s).2.1 = 201 ∧
      Store.lookup (createUserHandler (some u) newId now s).1 newId ≠ none) := by
  constructor
  · intro s newId now
    rfl
  · intro s u newId now
    refine ⟨rfl, ?_⟩
    simp [createUserHandler, Store.lookup_insert_self]

/-- C3: when the server-generated ID is fresh (it collides with no
stored ID — UUID collision is treated as negligible), create followed by
get on the returned ID answers 200 with a user carrying exactly the
requested name and email, and the new ID differs from every ID already
in the store. -/
theorem create_then_get_roundtrip (s : Store) (bodyId nm em : String)
    (bodyTs : Nat) (newId : String) (now : Nat)
    (hfresh : newId ∉ Store.keys s) :
    getUserHandler newId
        (createUserHandler
          (some { id := bodyId, name := nm, email := em, createdAt := bodyTs })
          newId now s).1 =
      (200, { status := "success", message := "User retrieved successfully",
              data := some (Payload.user
                { id := newId, name := nm, email := em, createdAt := now }) }) ∧
    ∀ k ∈ Store.keys s, newId ≠ k := by
  constructor
  · simp [getUserHandler, createUserHandler, Store.lookup_insert_self]
  · intro k hk heq
    exact hfresh (heq ▸ hk)

/-- Witness for C3: creating name "John Doe", email "john@example.com"
under fresh id "i2" into a store holding "i1" and getting "i2" back
returns that user, and "i2" differs from the previously issued "i1". -/
theorem create_then_get_roundtrip_witness :
    getUserHandler "i2"
        (createUserHandler
          (some { id := "", name := "John Doe", email := "john@example.com",
                  createdAt := 0 })
          "i2" 9
          [("i1", { id := "i1", name := "A", email := "a@x.com", createdAt := 7 })]).1 =
      (200, { status := "success", message := "User retrieved successfully",
              data := some (Payload.user
                { id := "i2", name := "John Doe", email := "john@example.com",
                  createdAt := 9 }) }) ∧
    ∀ k ∈ Store.keys
        [("i1", { id := "i1", name := "A", email := "a@x.com", createdAt := 7 })],
      "i2" ≠ k :=
  create_then_get_roundtrip
    [("i1", { id := "i1", name := "A", email := "a@x.com", createdAt := 7 })]
    "" "John Doe" "john@example.com" 0 "i2" 9 (by decide)

/-- C6: when delete on an ID answers 200, a subsequent get on that ID
and a subsequent delete on that ID both answer the 404 not-found
envelope and the second delete leaves the store unchanged; conversely
delete on an ID absent from the store answers the 404 not-found envelope
and returns the store unchanged. -/
theorem delete_idempotent_notfound (s : Store) (id : String) :
    ((deleteUserHandler id s).2.1 = 200 →
      getUserHandler id (deleteUserHandler id s).1 = (404, notFoundResponse) ∧
      deleteUserHandler id (deleteUserHandler id s).1 =
        ((deleteUserHandler id s).1, 404, notFoundResponse)) ∧
    (Store.lookup s id = none →
      deleteUserHandler id s = (s, 404, notFoundResponse)) := by
  constructor
  · intro hok
    cases h : Store.lookup s id with
    | none => simp [deleteUserHandler, h] at hok
    | some u =>
        have hstore : (deleteUserHandler id s).1 = Store.erase s id := by
          simp [deleteUserHandler, h]
        rw [hstore]
        constructor
        · simp [getUserHandler, Store.lookup_erase_self]
        · simp [deleteUserHandler, Store.lookup_erase_self]
  · intro habs
    simp [deleteUserHandler, habs]

/-- Witness for C6: with only "i1" stored, deleting "i1" succeeds, after
which get "i1" and delete "i1" both answer 404 with the store unchanged;
deleting the absent "nope" answers 404 and returns the store as it
was. -/
theorem delete_idempotent_notfound_witness :
    (getUserHandler "i1"
        (deleteUserHandler "i1"
          [("i1", { id := "i1", name := "A", email := "a@x.com", createdAt := 7 })]).1 =
      (404, notFoundResponse) ∧
     deleteUserHandler "i1"
        (deleteUserHandler "i1"
          [("i1", { id := "i1", name := "A", email := "a@x.com", createdAt := 7 })]).1 =
      ((deleteUserHandler "i1"
          [("i1", { id := "i1", name := "A", email := "a@x.com", createdAt := 7 })]).1,
        404, notFoundResponse)) ∧
    deleteUserHandler "nope"
        [("i1", { id := "i1", name := "A", email := "a@x.com", createdAt := 7 })] =
      ([("i1", { id := "i1", name := "A", email := "a@x.com", createdAt := 7 })],
        404, notFoundResponse) := by
  constructor
  · exact (delete_idempotent_notfound
      [("i1", { id := "i1", name := "A", email := "a@x.com", createdAt := 7 })]
      "i1").1 (by decide)
  · exact (delete_idempotent_notfound
      [("i1", { id := "i1", name := "A", email := "a@x.com", createdAt := 7 })]
      "nope").2 (by decide)

/-- C7: every response of every handler is an envelope whose status is
"ok", "success" or "error" and whose message is non-empty, every
response with status "error" carries no data payload, and the success
response of delete carries no data payload. -/
theorem all_responses_well_formed :
    (∀ t u : String, envelopeOK (healthHandler t u).2) ∧
    (∀ s : Store, envelopeOK (getUsersHandler s).2) ∧
    (∀ (b : Option User) (i : String) (n : Nat) (s : Store),
      envelopeOK (createUserHandler b i n s).2.2) ∧
    (∀ (i : String) (s : Store), envelopeOK (getUserHandler i s).2) ∧
    (∀ (i : String) (b : Option User) (s : Store),
      envelopeOK (updateUserHandler i b s).2.2) ∧
    (∀ (i : String) (s : Store), envelopeOK (deleteUserHandler i s).2.2) ∧
    (∀ (i : String) (s : Store), (deleteUserHandler i s).2.1 = 200 →
      (deleteUserHandler i s).2.2.data = none) := by
  refine ⟨?_, ?_, ?_, ?_, ?_, ?_, ?_⟩
  · intro t u
    simp [healthHandler, envelopeOK]
  · intro s
    simp [getUsersHandler, envelopeOK]
  · intro b i n s
    cases b <;> simp [createUserHandler, envelopeOK, invalidBodyResponse]
  · intro i s
    cases h : Store.lookup s i <;>
      simp [getUserHandler, h, envelopeOK, notFoundResponse]
  · intro i b s
    cases h : Store.lookup s i <;> cases b <;>
      simp [updateUserHandler, h, envelopeOK, notFoundResponse, invalidBodyResponse]
  · intro i s
    cases h : Store.lookup s i <;>
      simp [deleteUserHandler, h, envelopeOK, notFoundResponse]
  · intro i s hok
    cases h : Store.lookup s i <;>
      simp [deleteUserHandler, h, notFoundResponse]

/-- Witness for C7: the concrete envelopes of the health handler and of
a delete that succeeds on the singleton store holding "i1" are
well-formed, and that delete success carries no payload. -/
theorem all_responses_well_formed_witness :
    envelopeOK (healthHandler "2026-10-11T00:00:00Z" "1s").2 ∧
    envelopeOK (deleteUserHandler "i1"
      [("i1", { id := "i1", name := "A", email := "a@x.com", createdAt := 7 })]).2.2 ∧
    (deleteUserHandler "i1"
      [("i1", { id := "i1", name := "A", email := "a@x.com", createdAt := 7 })]).2.2.data
      = none :=
  ⟨all_responses_well_formed.1 "2026-10-11T00:00:00Z" "1s",
   all_responses_well_formed.2.2.2.2.2.1 "i1"
     [("i1", { id := "i1", name := "A", email := "a@x.com", createdAt := 7 })],
   all_responses_well_formed.2.2.2.2.2.2 "i1"
     [("i1", { id := "i1", name := "A", email := "a@x.com", createdAt := 7 })]
     (by decide)⟩

/-- C8: list returns exactly the stored records (its payload is the
sequence of values of the store), and after creating three users with
pairwise distinct fresh IDs into the empty store the listed collection
contains, as a set, exactly those three records. -/
theorem list_completeness (i1 i2 i3 n1 n2 n3 e1 e2 e3 : String)
    (t1 t2 t3 : Nat) (h12 : i1 ≠ i2) (h13 : i1 ≠ i3) (h23 : i2 ≠ i3) :
    (∀ s : Store,
      (getUsersHandler s).2.data = some (Payload.userList (Store.values s))) ∧
    (∀ u : User,
      u ∈ Store.values
        (createUserHandler (some { id := "", name := n3, email := e3, createdAt := 0 })
          i3 t3
          (createUserHandler (some { id := "", name := n2, email := e2, createdAt := 0 })
            i2 t2
            (createUserHandler (some { id := "", name := n1, email := e1, createdAt := 0 })
              i1 t1 []).1).1).1 ↔
      u = { id := i1, name := n1, email := e1, createdAt := t1 } ∨
      u = { id := i2, name := n2, email := e2, createdAt := t2 } ∨
      u = { id := i3, name := n3, email := e3, createdAt := t3 }) := by
  constructor
  · intro s
    rfl
  · intro u
    simp [createUserHandler, Store.insert, Store.values, h12, h13, h23]

/-- Witness for C8: after creating ids "i1", "i2", "i3" into the empty
store, the second created record is among the listed users, and a record
with the fresh id "i4" is not. -/
theorem list_completeness_witness :
    ({ id := "i2", name := "B", email := "b@x.com", createdAt := 2 } : User) ∈
      Store.values
        (createUserHandler (some { id := "", name := "C", email := "c@x.com", createdAt := 0 })
          "i3" 3
          (createUserHandler (some { id := "", name := "B", email := "b@x.com", createdAt := 0 })
            "i2" 2
            (createUserHandler (some { id := "", name := "A", email := "a@x.com", createdAt := 0 })
              "i1" 1 []).1).1).1 ∧
    ({ id := "i4", name := "D", email := "d@x.com", createdAt := 4 } : User) ∉
      Store.values
        (createUserHandler (some { id := "", name := "C", email := "c@x.com", createdAt := 0 })
          "i3" 3
          (createUserHandler (some { id := "", name := "B", email := "b@x.com", createdAt := 0 })
            "i2" 2
            (createUserHandler (some { id := "", name := "A", email := "a@x.com", createdAt := 0 })
              "i1" 1 []).1).1).1 := by
  constructor
  · exact ((list_completeness "i1" "i2" "i3" "A" "B" "C" "a@x.com" "b@x.com" "c@x.com"
      1 2 3 (by decide) (by decide) (by decide)).2
      { id := "i2", name := "B", email := "b@x.com", createdAt := 2 }).mpr
      (Or.inr (Or.inl rfl))
  · intro hmem
    have h := ((list_completeness "i1" "i2" "i3" "A" "B" "C" "a@x.com" "b@x.com" "c@x.com"
      1 2 3 (by decide) (by decide) (by decide)).2
      { id := "i4", name := "D", email := "d@x.com", createdAt := 4 }).mp hmem
    rcases h with h | h | h <;> simp at h
